import Mathlib

/-!
Verification development for the Spark AR boombox scene-binding script
(`Scripting/Boombox/Boombox [finished]/scripts/script.js`).

The script is straight-line glue code against the host scene/animation/gesture
API.  We shallowly embed:

* the callback bodies of the three gesture subscriptions (pan, pinch, rotate)
  as pure state-update functions over rational-valued transform channels;
* the load-time sequence of host-API effects as an explicit effect trace;
* the two periodic scale animations as symbolic scalar-signal expressions,
  together with an evaluation semantics for the host animation engine
  (time driver + easing sampler) modelled from the spec, since the host
  runtime is not part of this repository.
-/

/-- Parameters object passed to `Animation.timeDriver`.  The script supplies
`durationMilliseconds`, `loopCount` (the value `Infinity`, embedded as `⊤`),
and `mirror`. -/
structure DriverParams where
  durationMilliseconds : ℕ
  loopCount : ℕ∞
  mirror : Bool
deriving DecidableEq

/-- Transcription of `baseDriverParameters` from the script:
duration 400 ms, infinite loop count, mirror enabled. -/
def baseDriverParameters : DriverParams :=
  { durationMilliseconds := 400, loopCount := ⊤, mirror := true }

/-- Transcription of `speakerDriverParameters` from the script:
duration 200 ms, infinite loop count, mirror enabled. -/
def speakerDriverParameters : DriverParams :=
  { durationMilliseconds := 200, loopCount := ⊤, mirror := true }

/-- Easing samplers built through `Animation.samplers` in the script:
`easeInQuint(a, b)` and `easeOutElastic(a, b)` with the range endpoints
the script passes in. -/
inductive Sampler where
  | easeInQuint (a b : ℚ)
  | easeOutElastic (a b : ℚ)
deriving DecidableEq

/-- Transcription of `baseSampler = Animation.samplers.easeInQuint(0.9, 1)`. -/
def baseSampler : Sampler := Sampler.easeInQuint 0.9 1

/-- Transcription of
`speakerSampler = Animation.samplers.easeOutElastic(0.7, 0.85)`. -/
def speakerSampler : Sampler := Sampler.easeOutElastic 0.7 0.85

/-- Symbolic scalar-signal expressions constructed by the script at load time.
The script only builds `Animation.animate(driver, sampler)` signals for the
scale bindings. -/
inductive ScalarSignal where
  | animate (d : DriverParams) (s : Sampler)
deriving DecidableEq

/-- Transcription of `baseAnimation = Animation.animate(baseDriver, baseSampler)`. -/
def baseAnimation : ScalarSignal := ScalarSignal.animate baseDriverParameters baseSampler

/-- Transcription of
`speakerAnimation = Animation.animate(speakerDriver, speakerSampler)`. -/
def speakerAnimation : ScalarSignal :=
  ScalarSignal.animate speakerDriverParameters speakerSampler

/-- The scale channels of a transform after the load-time signal bindings:
each channel holds the scalar-signal expression assigned to it. -/
structure TransformSignals where
  scaleX : ScalarSignal
  scaleY : ScalarSignal
  scaleZ : ScalarSignal
deriving DecidableEq

/-- Transcription of the three assignments
`baseTransform.scaleX/Y/Z = baseAnimation` in the script. -/
def baseTransform : TransformSignals :=
  { scaleX := baseAnimation, scaleY := baseAnimation, scaleZ := baseAnimation }

/-- Transcription of the three assignments
`speakerLeftTransform.scaleX/Y/Z = speakerAnimation` in the script. -/
def speakerLeftTransform : TransformSignals :=
  { scaleX := speakerAnimation, scaleY := speakerAnimation, scaleZ := speakerAnimation }

/-- Transcription of the three assignments
`speakerRightTransform.scaleX/Y/Z = speakerAnimation` in the script. -/
def speakerRightTransform : TransformSignals :=
  { scaleX := speakerAnimation, scaleY := speakerAnimation, scaleZ := speakerAnimation }

/-! ## Gesture data and the placer transform

The gesture callbacks operate on sampled scalar values; we embed signal
samples as rationals.  Signal `mul`/`add` on samples is rational
multiplication/addition. -/

/-- A pan gesture sample: its screen `location` and its `state` string. -/
structure PanGesture where
  location : ℚ × ℚ
  state : String

/-- A pinch gesture sample: its `scale` factor signal sample. -/
structure PinchGesture where
  scale : ℚ

/-- A rotate gesture sample: its `rotation` signal sample. -/
structure RotateGesture where
  rotation : ℚ

/-- The snapshot dictionary passed to `onPinch().subscribeWithSnapshot`:
keys `lastScaleX`, `lastScaleY`, `lastScaleZ`. -/
structure PinchSnapshot where
  lastScaleX : ℚ
  lastScaleY : ℚ
  lastScaleZ : ℚ

/-- The snapshot dictionary passed to `onRotate().subscribeWithSnapshot`:
the single key `lastRotationY`. -/
structure RotateSnapshot where
  lastRotationY : ℚ

/-- A transform's full channel state (position, rotation, scale), with signal
samples embedded as rationals. -/
structure TransformState where
  positionX : ℚ
  positionY : ℚ
  positionZ : ℚ
  rotationX : ℚ
  rotationY : ℚ
  rotationZ : ℚ
  scaleX : ℚ
  scaleY : ℚ
  scaleZ : ℚ

/-- Transcription of the pinch snapshot dictionary: each key is bound to the
corresponding scale channel of `placerTransform` at subscription time. -/
def pinchSnapshotOf (t : TransformState) : PinchSnapshot :=
  { lastScaleX := t.scaleX, lastScaleY := t.scaleY, lastScaleZ := t.scaleZ }

/-- Transcription of the rotate snapshot dictionary: `lastRotationY` is bound
to `placerTransform.rotationY` at subscription time. -/
def rotateSnapshotOf (t : TransformState) : RotateSnapshot :=
  { lastRotationY := t.rotationY }

/-- State of the plane tracker: its tracked `position`, plus a record of the
arguments of the last `trackPoint` call (so that the call's argument list is
observable in the embedding). -/
structure PlaneTrackerState where
  position : ℚ × ℚ
  lastTrackPointArgs : Option ((ℚ × ℚ) × String)

/-- Modelled from the spec: `PlaneTracker.trackPoint` is host API absent from
this repository.  Per the spec ("a pan gesture updates the tracked plane's
position to the gesture's location") and the script's own comment
("trackPoint() ... triggers new plane detection, updating the position of the
planetracker"), it sets the tracker's position to the supplied point.  The
embedding also records the argument list of the call. -/
def trackPoint (_pt : PlaneTrackerState) (point : ℚ × ℚ) (st : String) :
    PlaneTrackerState :=
  { position := point, lastTrackPointArgs := some (point, st) }

/-- The mutable state the gesture callbacks touch: the placer's transform and
the plane tracker. -/
structure WorldState where
  placerTransform : TransformState
  planeTracker : PlaneTrackerState

/-- Transcription of the `onPan` callback body:
`planeTracker.trackPoint(gesture.location, gesture.state)`. -/
def panCallback (gesture : PanGesture) (w : WorldState) : WorldState :=
  { w with planeTracker := trackPoint w.planeTracker gesture.location gesture.state }

/-- Transcription of the `onPinch` callback body:
`placerTransform.scaleX = gesture.scale.mul(snapshot.lastScaleX)` and likewise
for `scaleY`, `scaleZ`. -/
def pinchCallback (gesture : PinchGesture) (snapshot : PinchSnapshot)
    (w : WorldState) : WorldState :=
  { w with placerTransform :=
      { w.placerTransform with
          scaleX := gesture.scale * snapshot.lastScaleX
          scaleY := gesture.scale * snapshot.lastScaleY
          scaleZ := gesture.scale * snapshot.lastScaleZ } }

/-- Transcription of the `onRotate` callback body:
`correctRotation = gesture.rotation.mul(-1)` followed by
`placerTransform.rotationY = correctRotation.add(snapshot.lastRotationY)`. -/
def rotateCallback (gesture : RotateGesture) (snapshot : RotateSnapshot)
    (w : WorldState) : WorldState :=
  let correctRotation := gesture.rotation * (-1)
  { w with placerTransform :=
      { w.placerTransform with
          rotationY := correctRotation + snapshot.lastRotationY } }

/-! ## The load-time effect trace

The script body is straight-line code.  We record the host-API effects it
performs, in source order, as an explicit list. -/

/-- A scale channel axis. -/
inductive Axis where
  | x
  | y
  | z
deriving DecidableEq

/-- The three gesture streams the script subscribes to. -/
inductive GestureKind where
  | pan
  | pinch
  | rotate
deriving DecidableEq

/-- A host-API effect performed by the script at load time. -/
inductive Effect where
  | findNode (name : String)
  | createDriver (p : DriverParams)
  | startDriver (p : DriverParams)
  | createSampler (s : Sampler)
  | createAnimation (sig : ScalarSignal)
  | bindScale (node : String) (axis : Axis) (sig : ScalarSignal)
  | subscribeGesture (k : GestureKind)
deriving DecidableEq

/-- The script's load-time effects in source order: the five `sceneRoot.find`
lookups, then driver/sampler/animation construction (each driver started right
after its creation), then the nine scale-channel bindings, then the three
gesture subscriptions. -/
def loadTrace : List Effect :=
  [ Effect.findNode "base_jnt",
    Effect.findNode "speaker_left_jnt",
    Effect.findNode "speaker_right_jnt",
    Effect.findNode "planeTracker0",
    Effect.findNode "placer",
    Effect.createDriver baseDriverParameters,
    Effect.startDriver baseDriverParameters,
    Effect.createDriver speakerDriverParameters,
    Effect.startDriver speakerDriverParameters,
    Effect.createSampler baseSampler,
    Effect.createSampler speakerSampler,
    Effect.createAnimation baseAnimation,
    Effect.createAnimation speakerAnimation,
    Effect.bindScale "base_jnt" Axis.x baseAnimation,
    Effect.bindScale "base_jnt" Axis.y baseAnimation,
    Effect.bindScale "base_jnt" Axis.z baseAnimation,
    Effect.bindScale "speaker_left_jnt" Axis.x speakerAnimation,
    Effect.bindScale "speaker_left_jnt" Axis.y speakerAnimation,
    Effect.bindScale "speaker_left_jnt" Axis.z speakerAnimation,
    Effect.bindScale "speaker_right_jnt" Axis.x speakerAnimation,
    Effect.bindScale "speaker_right_jnt" Axis.y speakerAnimation,
    Effect.bindScale "speaker_right_jnt" Axis.z speakerAnimation,
    Effect.subscribeGesture GestureKind.pan,
    Effect.subscribeGesture GestureKind.pinch,
    Effect.subscribeGesture GestureKind.rotate ]

/-- The phase of a load-time effect: 0 for scene lookups, 1 for
driver/sampler/animation construction, 2 for scale bindings, 3 for gesture
subscriptions. -/
def Effect.phase : Effect → ℕ
  | Effect.findNode _ => 0
  | Effect.createDriver _ => 1
  | Effect.startDriver _ => 1
  | Effect.createSampler _ => 1
  | Effect.createAnimation _ => 1
  | Effect.bindScale _ _ _ => 2
  | Effect.subscribeGesture _ => 3

/-! ## Host animation semantics, modelled from the spec

The time driver and samplers are host API absent from this repository; their
evaluation is modelled from the spec (glossary: a driver is "a host-provided
time source producing a repeating progress value"; a sampler is "a
host-provided easing function mapping progress to an output range") and from
the script's own comment on `mirror` ("the animation will have returned to
its starting value by the time it has finished a loop"). -/

/-- Modelled from the spec: the repeating progress value of a time driver of
loop duration `D` milliseconds at time `t` milliseconds.  Without `mirror` the
progress ramps from 0 to 1 over each loop; with `mirror` it ramps up and back
down within a loop, returning to its starting value by the end of the loop. -/
def rawProgress (D : ℚ) (mirror : Bool) (t : ℚ) : ℚ :=
  if mirror then 1 - |2 * Int.fract (t / D) - 1| else Int.fract (t / D)

/-- Modelled from the spec: the progress of a time driver with the given
parameters at time `t`.  With `loopCount = ⊤` (`Infinity`) the driver repeats
forever; with a finite loop count it holds its final value once every loop has
run. -/
def driverProgress (d : DriverParams) (t : ℚ) : ℚ :=
  if d.loopCount = ⊤ then
    rawProgress (d.durationMilliseconds : ℚ) d.mirror t
  else if t < d.loopCount.toNat * (d.durationMilliseconds : ℚ) then
    rawProgress (d.durationMilliseconds : ℚ) d.mirror t
  else if d.mirror then 0 else 1

/-- The core ease-in-quint easing on progress values: the standard quintic. -/
def easeInQuintCore (p : ℚ) : ℚ := p ^ 5

/-- Modelled from the spec: the host's core ease-out-elastic easing is not in
this repository, so the evaluation semantics is parameterised by it. -/
structure EasingEnv where
  elastic : ℚ → ℚ

/-- Modelled from the spec: a sampler maps a progress value into its
configured output range `[a, b]` through its easing function. -/
def Sampler.eval (env : EasingEnv) : Sampler → ℚ → ℚ
  | Sampler.easeInQuint a b, p => a + (b - a) * easeInQuintCore p
  | Sampler.easeOutElastic a b, p => a + (b - a) * env.elastic p

/-- Modelled from the spec: `Animation.animate(driver, sampler)` evaluates to
the sampler applied to the driver's progress at each instant. -/
def ScalarSignal.eval (env : EasingEnv) : ScalarSignal → ℚ → ℚ
  | ScalarSignal.animate d s, t => Sampler.eval env s (driverProgress d t)

/-- The identity easing, used as a concrete instance of the host's
ease-out-elastic core easing. -/
def envId : EasingEnv := { elastic := fun p => p }

/-! ## Helper lemmas about the driver progress -/

/-- The raw driver progress always lies in `[0, 1]`. -/
theorem rawProgress_mem (D : ℚ) (mirror : Bool) (t : ℚ) :
    0 ≤ rawProgress D mirror t ∧ rawProgress D mirror t ≤ 1 := by
  have h0 : (0 : ℚ) ≤ Int.fract (t / D) := Int.fract_nonneg _
  have h1 : Int.fract (t / D) < 1 := Int.fract_lt_one _
  unfold rawProgress
  cases mirror with
  | false => exact ⟨h0, le_of_lt h1⟩
  | true =>
    simp only [if_pos]
    have habs : |2 * Int.fract (t / D) - 1| ≤ 1 :=
      abs_le.mpr ⟨by linarith, by linarith⟩
    have habs0 : 0 ≤ |2 * Int.fract (t / D) - 1| := abs_nonneg _
    exact ⟨by linarith, by linarith⟩

/-- The driver progress always lies in `[0, 1]`. -/
theorem driverProgress_mem (d : DriverParams) (t : ℚ) :
    0 ≤ driverProgress d t ∧ driverProgress d t ≤ 1 := by
  unfold driverProgress
  split_ifs with h1 h2 h3
  · exact rawProgress_mem _ _ _
  · exact rawProgress_mem _ _ _
  · exact ⟨le_refl 0, by norm_num⟩
  · exact ⟨by norm_num, le_refl 1⟩

/-- An infinitely looping driver's progress is periodic with period equal to
its loop duration. -/
theorem driverProgress_period (d : DriverParams) (hl : d.loopCount = ⊤)
    (hD : (d.durationMilliseconds : ℚ) ≠ 0) (t : ℚ) :
    driverProgress d (t + d.durationMilliseconds) = driverProgress d t := by
  unfold driverProgress
  rw [if_pos hl, if_pos hl]
  have key : (t + (d.durationMilliseconds : ℚ)) / (d.durationMilliseconds : ℚ)
      = t / (d.durationMilliseconds : ℚ) + 1 := by
    field_simp
  unfold rawProgress
  rw [key, Int.fract_add_one]

/-- Evaluation of an `animate` signal over an infinitely looping driver is
periodic with period equal to the driver's loop duration. -/
theorem animate_eval_period (env : EasingEnv) (d : DriverParams) (s : Sampler)
    (hl : d.loopCount = ⊤) (hD : (d.durationMilliseconds : ℚ) ≠ 0) (t : ℚ) :
    ScalarSignal.eval env (ScalarSignal.animate d s) (t + d.durationMilliseconds)
      = ScalarSignal.eval env (ScalarSignal.animate d s) t := by
  simp only [ScalarSignal.eval]
  rw [driverProgress_period d hl hD t]

/-! ## Claim theorems -/

/-- C1: for every pinch gesture event, the pinch callback sets each of the
placer transform's three scale channels to the gesture's scale factor
multiplied by the corresponding scale value captured at subscription time
(the snapshot values `lastScaleX`, `lastScaleY`, `lastScaleZ` taken from the
placer transform `p₀` at subscription time). -/
theorem pinch_callback_scales_by_snapshot (gesture : PinchGesture)
    (p₀ : TransformState) (w : WorldState) :
    (pinchCallback gesture (pinchSnapshotOf p₀) w).placerTransform.scaleX
        = gesture.scale * p₀.scaleX ∧
    (pinchCallback gesture (pinchSnapshotOf p₀) w).placerTransform.scaleY
        = gesture.scale * p₀.scaleY ∧
    (pinchCallback gesture (pinchSnapshotOf p₀) w).placerTransform.scaleZ
        = gesture.scale * p₀.scaleZ :=
  ⟨rfl, rfl, rfl⟩

/-- C2: for every rotate gesture event, the rotate callback sets the placer
transform's `rotationY` to the gesture's rotation multiplied by `-1` added to
the y-rotation captured at subscription time (the snapshot value
`lastRotationY` taken from the placer transform `p₀` at subscription time). -/
theorem rotate_callback_negates_and_adds (gesture : RotateGesture)
    (p₀ : TransformState) (w : WorldState) :
    (rotateCallback gesture (rotateSnapshotOf p₀) w).placerTransform.rotationY
      = gesture.rotation * (-1) + p₀.rotationY :=
  rfl

/-- C5: for every pan gesture event, the pan callback calls the plane
tracker's `trackPoint` operation with the gesture's location as the tracked
point, and (under the spec-modelled `trackPoint` semantics) the tracked
plane's position becomes the gesture's location. -/
theorem pan_callback_tracks_gesture_location (gesture : PanGesture)
    (w : WorldState) :
    (panCallback gesture w).planeTracker.position = gesture.location ∧
    Option.map Prod.fst (panCallback gesture w).planeTracker.lastTrackPointArgs
      = some gesture.location :=
  ⟨rfl, rfl⟩

/-- C10: for every pan gesture event, the pan callback passes both the
gesture's location and the gesture's state to `trackPoint`, not the location
alone. -/
theorem pan_callback_passes_location_and_state (gesture : PanGesture)
    (w : WorldState) :
    (panCallback gesture w).planeTracker.lastTrackPointArgs
      = some (gesture.location, gesture.state) :=
  rfl

/-- C7: the three gesture callbacks have no conditional or error branch: for
every input state and gesture (and snapshot) each callback is a total function
equal to a single unconditional record update of its target state. -/
theorem callbacks_total_unconditional :
    (∀ (g : PanGesture) (w : WorldState),
      panCallback g w =
        { w with planeTracker :=
            { position := g.location,
              lastTrackPointArgs := some (g.location, g.state) } }) ∧
    (∀ (g : PinchGesture) (s : PinchSnapshot) (w : WorldState),
      pinchCallback g s w =
        { w with placerTransform :=
            { w.placerTransform with
                scaleX := g.scale * s.lastScaleX
                scaleY := g.scale * s.lastScaleY
                scaleZ := g.scale * s.lastScaleZ } }) ∧
    (∀ (g : RotateGesture) (s : RotateSnapshot) (w : WorldState),
      rotateCallback g s w =
        { w with placerTransform :=
            { w.placerTransform with
                rotationY := g.rotation * (-1) + s.lastRotationY } }) :=
  ⟨fun _ _ => rfl, fun _ _ _ => rfl, fun _ _ _ => rfl⟩

/-- C9: each gesture callback writes only its own transform channels: the
pinch callback leaves the placer's position and rotation channels unchanged,
the rotate callback leaves the placer's position, scale, `rotationX` and
`rotationZ` channels unchanged, and the pan callback leaves the whole placer
transform unchanged. -/
theorem callback_frame_effects (gPan : PanGesture) (gPinch : PinchGesture)
    (sPinch : PinchSnapshot) (gRot : RotateGesture) (sRot : RotateSnapshot)
    (w : WorldState) :
    ((pinchCallback gPinch sPinch w).placerTransform.positionX
        = w.placerTransform.positionX ∧
      (pinchCallback gPinch sPinch w).placerTransform.positionY
        = w.placerTransform.positionY ∧
      (pinchCallback gPinch sPinch w).placerTransform.positionZ
        = w.placerTransform.positionZ ∧
      (pinchCallback gPinch sPinch w).placerTransform.rotationX
        = w.placerTransform.rotationX ∧
      (pinchCallback gPinch sPinch w).placerTransform.rotationY
        = w.placerTransform.rotationY ∧
      (pinchCallback gPinch sPinch w).placerTransform.rotationZ
        = w.placerTransform.rotationZ) ∧
    ((rotateCallback gRot sRot w).placerTransform.positionX
        = w.placerTransform.positionX ∧
      (rotateCallback gRot sRot w).placerTransform.positionY
        = w.placerTransform.positionY ∧
      (rotateCallback gRot sRot w).placerTransform.positionZ
        = w.placerTransform.positionZ ∧
      (rotateCallback gRot sRot w).placerTransform.scaleX
        = w.placerTransform.scaleX ∧
      (rotateCallback gRot sRot w).placerTransform.scaleY
        = w.placerTransform.scaleY ∧
      (rotateCallback gRot sRot w).placerTransform.scaleZ
        = w.placerTransform.scaleZ ∧
      (rotateCallback gRot sRot w).placerTransform.rotationX
        = w.placerTransform.rotationX ∧
      (rotateCallback gRot sRot w).placerTransform.rotationZ
        = w.placerTransform.rotationZ) ∧
    (panCallback gPan w).placerTransform = w.placerTransform :=
  ⟨⟨rfl, rfl, rfl, rfl, rfl, rfl⟩, ⟨rfl, rfl, rfl, rfl, rfl, rfl, rfl, rfl⟩, rfl⟩

/-- C8: both speakers' scale channels are assigned the single
`speakerAnimation` signal, so the two speakers carry identical scale signals
(hence identical scale values at every instant) and, for each speaker and for
the base, `scaleX = scaleY = scaleZ` (all animated scaling is uniform). -/
theorem uniform_scale_invariant :
    speakerLeftTransform = speakerRightTransform ∧
    speakerLeftTransform.scaleX = speakerLeftTransform.scaleY ∧
    speakerLeftTransform.scaleY = speakerLeftTransform.scaleZ ∧
    speakerRightTransform.scaleX = speakerRightTransform.scaleY ∧
    speakerRightTransform.scaleY = speakerRightTransform.scaleZ ∧
    baseTransform.scaleX = baseTransform.scaleY ∧
    baseTransform.scaleY = baseTransform.scaleZ ∧
    (∀ (env : EasingEnv) (t : ℚ),
      ScalarSignal.eval env speakerLeftTransform.scaleX t
        = ScalarSignal.eval env speakerRightTransform.scaleX t ∧
      ScalarSignal.eval env speakerLeftTransform.scaleX t
        = ScalarSignal.eval env speakerLeftTransform.scaleY t ∧
      ScalarSignal.eval env speakerLeftTransform.scaleY t
        = ScalarSignal.eval env speakerLeftTransform.scaleZ t) :=
  ⟨rfl, rfl, rfl, rfl, rfl, rfl, rfl, fun _ _ => ⟨rfl, rfl, rfl⟩⟩

/-- C6: at load the script performs its effects in phase order (all scene
lookups first, then driver/sampler/animation construction, then the scale
bindings, then the gesture subscriptions), with each of the five named lookups
exactly once, each driver created and started exactly once, each sampler and
animation created exactly once, each scale binding performed exactly once, and
each gesture stream subscribed exactly once. -/
theorem load_sequence_phases_and_counts :
    List.Sorted (· ≤ ·) (List.map Effect.phase loadTrace) ∧
    loadTrace.count (Effect.findNode "base_jnt") = 1 ∧
    loadTrace.count (Effect.findNode "speaker_left_jnt") = 1 ∧
    loadTrace.count (Effect.findNode "speaker_right_jnt") = 1 ∧
    loadTrace.count (Effect.findNode "planeTracker0") = 1 ∧
    loadTrace.count (Effect.findNode "placer") = 1 ∧
    loadTrace.count (Effect.createDriver baseDriverParameters) = 1 ∧
    loadTrace.count (Effect.createDriver speakerDriverParameters) = 1 ∧
    loadTrace.count (Effect.startDriver baseDriverParameters) = 1 ∧
    loadTrace.count (Effect.startDriver speakerDriverParameters) = 1 ∧
    loadTrace.count (Effect.createSampler baseSampler) = 1 ∧
    loadTrace.count (Effect.createSampler speakerSampler) = 1 ∧
    loadTrace.count (Effect.createAnimation baseAnimation) = 1 ∧
    loadTrace.count (Effect.createAnimation speakerAnimation) = 1 ∧
    loadTrace.count (Effect.bindScale "base_jnt" Axis.x baseAnimation) = 1 ∧
    loadTrace.count (Effect.bindScale "base_jnt" Axis.y baseAnimation) = 1 ∧
    loadTrace.count (Effect.bindScale "base_jnt" Axis.z baseAnimation) = 1 ∧
    loadTrace.count (Effect.bindScale "speaker_left_jnt" Axis.x speakerAnimation) = 1 ∧
    loadTrace.count (Effect.bindScale "speaker_left_jnt" Axis.y speakerAnimation) = 1 ∧
    loadTrace.count (Effect.bindScale "speaker_left_jnt" Axis.z speakerAnimation) = 1 ∧
    loadTrace.count (Effect.bindScale "speaker_right_jnt" Axis.x speakerAnimation) = 1 ∧
    loadTrace.count (Effect.bindScale "speaker_right_jnt" Axis.y speakerAnimation) = 1 ∧
    loadTrace.count (Effect.bindScale "speaker_right_jnt" Axis.z speakerAnimation) = 1 ∧
    loadTrace.count (Effect.subscribeGesture GestureKind.pan) = 1 ∧
    loadTrace.count (Effect.subscribeGesture GestureKind.pinch) = 1 ∧
    loadTrace.count (Effect.subscribeGesture GestureKind.rotate) = 1 := by
  with_unfolding_all decide

/-- C3: after load, the base node's three scale channels are all bound to the
one scalar signal built from a 400 ms, infinitely looping, mirrored time
driver composed with an ease-in-quint sampler over `[0.9, 1]`, so under the
spec-modelled animation semantics the base's scale stays within `[0.9, 1]` and
repeats with period 400 ms. -/
theorem base_scale_binding_and_animation :
    baseTransform.scaleX = baseAnimation ∧
    baseTransform.scaleY = baseAnimation ∧
    baseTransform.scaleZ = baseAnimation ∧
    baseAnimation = ScalarSignal.animate
      { durationMilliseconds := 400, loopCount := ⊤, mirror := true }
      (Sampler.easeInQuint 0.9 1) ∧
    ∀ (env : EasingEnv) (t : ℚ),
      0.9 ≤ ScalarSignal.eval env baseAnimation t ∧
      ScalarSignal.eval env baseAnimation t ≤ 1 ∧
      ScalarSignal.eval env baseAnimation (t + 400)
        = ScalarSignal.eval env baseAnimation t := by
  refine ⟨rfl, rfl, rfl, rfl, fun env t => ?_⟩
  have hmem := driverProgress_mem baseDriverParameters t
  have hpow0 : (0 : ℚ) ≤ driverProgress baseDriverParameters t ^ 5 :=
    pow_nonneg hmem.1 5
  have hpow1 : driverProgress baseDriverParameters t ^ 5 ≤ 1 :=
    pow_le_one₀ hmem.1 hmem.2
  have heval : ∀ u : ℚ, ScalarSignal.eval env baseAnimation u
      = 0.9 + (1 - 0.9) * driverProgress baseDriverParameters u ^ 5 :=
    fun _ => rfl
  have hcast : ((baseDriverParameters.durationMilliseconds : ℕ) : ℚ) = 400 := by
    norm_num [baseDriverParameters]
  have hper := animate_eval_period env baseDriverParameters baseSampler rfl
    (by rw [hcast]; norm_num) t
  rw [hcast] at hper
  exact ⟨by rw [heval t]; nlinarith, by rw [heval t]; nlinarith, hper⟩

/-- C4: after load, the three scale channels of both speaker nodes are all
bound to the one scalar signal built from a 200 ms, infinitely looping,
mirrored time driver composed with an ease-out-elastic sampler over
`[0.7, 0.85]`; under the spec-modelled animation semantics, for any host
ease-out-elastic core easing mapping `[0, 1]` into `[0, 1]`, each speaker's
scale stays within `[0.7, 0.85]` and repeats with period 200 ms. -/
theorem speaker_scale_binding_and_animation (env : EasingEnv)
    (h : ∀ p : ℚ, 0 ≤ p → p ≤ 1 → 0 ≤ env.elastic p ∧ env.elastic p ≤ 1) :
    speakerLeftTransform.scaleX = speakerAnimation ∧
    speakerLeftTransform.scaleY = speakerAnimation ∧
    speakerLeftTransform.scaleZ = speakerAnimation ∧
    speakerRightTransform.scaleX = speakerAnimation ∧
    speakerRightTransform.scaleY = speakerAnimation ∧
    speakerRightTransform.scaleZ = speakerAnimation ∧
    speakerAnimation = ScalarSignal.animate
      { durationMilliseconds := 200, loopCount := ⊤, mirror := true }
      (Sampler.easeOutElastic 0.7 0.85) ∧
    ∀ t : ℚ,
      0.7 ≤ ScalarSignal.eval env speakerAnimation t ∧
      ScalarSignal.eval env speakerAnimation t ≤ 0.85 ∧
      ScalarSignal.eval env speakerAnimation (t + 200)
        = ScalarSignal.eval env speakerAnimation t := by
  refine ⟨rfl, rfl, rfl, rfl, rfl, rfl, rfl, fun t => ?_⟩
  have hmem := driverProgress_mem speakerDriverParameters t
  have helastic := h (driverProgress speakerDriverParameters t) hmem.1 hmem.2
  have heval : ∀ u : ℚ, ScalarSignal.eval env speakerAnimation u
      = 0.7 + (0.85 - 0.7) * env.elastic (driverProgress speakerDriverParameters u) :=
    fun _ => rfl
  have hcast : ((speakerDriverParameters.durationMilliseconds : ℕ) : ℚ) = 200 := by
    norm_num [speakerDriverParameters]
  have hper := animate_eval_period env speakerDriverParameters speakerSampler rfl
    (by rw [hcast]; norm_num) t
  rw [hcast] at hper
  exact ⟨by rw [heval t]; nlinarith [helastic.1, helastic.2],
    by rw [heval t]; nlinarith [helastic.1, helastic.2], hper⟩

/-- Witness for C4: the hypothesis is satisfied by the identity easing, and
the speaker animation evaluates within the configured bounds at time 0. -/
theorem speaker_scale_binding_and_animation_witness :
    0.7 ≤ ScalarSignal.eval envId speakerAnimation 0 ∧
    ScalarSignal.eval envId speakerAnimation 0 ≤ 0.85 :=
  ⟨((speaker_scale_binding_and_animation envId
      (fun _ h0 h1 => ⟨h0, h1⟩)).2.2.2.2.2.2.2 0).1,
    ((speaker_scale_binding_and_animation envId
      (fun _ h0 h1 => ⟨h0, h1⟩)).2.2.2.2.2.2.2 0).2.1⟩


